import Mathlib

/-!
Shallow embedding of `src/features/common/ai/providers/whisper_live_server.py`,
the WhisperLive server launcher.  Python floats are modelled exactly as
rationals (ℚ); the decimal values appearing in the launcher (0.5, 0.3, 0.15,
5.0, ...) are all exactly representable, so no binary rounding is involved at
the precision the launcher manipulates.  Environments (`os.environ`) are
modelled as functions `String → Option String`; a fallible Python computation
(one that may raise) returns an `Option`.
-/

/-- Numeric value of a list of ASCII digit characters, most significant first. -/
def digitsToNat (l : List Char) : ℕ :=
  l.foldl (fun a c => 10 * a + (c.toNat - 48)) 0

/-- Decimal-literal core shared by the model of Python's float parsing:
integer digits with an optional fractional part, at least one digit overall. -/
def parseDecimal (cs : List Char) : Option ℚ :=
  let intPart := cs.takeWhile Char.isDigit
  match cs.dropWhile Char.isDigit with
  | [] =>
    if intPart.isEmpty then none
    else some (mkRat (digitsToNat intPart) 1)
  | '.' :: fracs =>
    if (intPart.isEmpty && fracs.isEmpty) || !(fracs.all Char.isDigit) then none
    else some (mkRat (digitsToNat intPart * 10 ^ fracs.length + digitsToNat fracs)
                     (10 ^ fracs.length))
  | _ => none

/-- Model of the Python builtin float applied to a string: an optional sign
followed by a decimal literal.  Exponent, infinity, nan and surrounding
whitespace forms are outside the model; `none` models a raised ValueError. -/
def pyParseFloat (s : String) : Option ℚ :=
  match s.data with
  | '-' :: t => (parseDecimal t).map (fun q => -q)
  | '+' :: t => parseDecimal t
  | t => parseDecimal t

/-- Model of the Python builtin int applied to a string: an optional sign
followed by decimal digits; `none` models a raised ValueError. -/
def pyParseInt (s : String) : Option ℤ :=
  let digits : List Char → Option ℕ := fun t =>
    if t.isEmpty || !(t.all Char.isDigit) then none else some (digitsToNat t)
  match s.data with
  | '-' :: t => (digits t).map (fun n => -(n : ℤ))
  | '+' :: t => (digits t).map (fun n => (n : ℤ))
  | t => (digits t).map (fun n => (n : ℤ))

/-- Fractional decimal digits of `num / den` (with `num < den`), truncated at
`fuel` digits; every value produced by `pyParseFloat` has a terminating
expansion, so the truncation is never reached on values the launcher builds. -/
def fracDigits : ℕ → ℕ → ℕ → List Char
  | 0, _, _ => []
  | fuel + 1, num, den =>
    if num = 0 then []
    else Char.ofNat (48 + num * 10 / den) :: fracDigits fuel (num * 10 % den) den

/-- Model of the Python builtin str applied to a float value: the exact decimal
expansion, with a trailing zero digit after the point for integral values
(Python prints 5.0, not 5).  On the decimal values the launcher manipulates
this coincides with Python's shortest-roundtrip repr. -/
def pyStrFloat (q : ℚ) : String :=
  let n := q.num.natAbs
  let d := q.den
  let frs := if n % d = 0 then "0" else String.mk (fracDigits 40 (n % d) d)
  (if q.num < 0 then "-" else "") ++ toString (n / d) ++ "." ++ frs

/-- Does `needle` occur at the head of `hay`? -/
def listStartsWith : List Char → List Char → Bool
  | [], _ => true
  | _ :: _, [] => false
  | a :: as, b :: bs => a == b && listStartsWith as bs

/-- Does `needle` occur contiguously anywhere in the list? -/
def listHasSub (needle : List Char) : List Char → Bool
  | [] => needle.isEmpty
  | c :: t => listStartsWith needle (c :: t) || listHasSub needle t

/-- Model of Python's substring containment test (the in operator on str). -/
def strContainsStr (needle hay : String) : Bool :=
  listHasSub needle.data hay.data

/-- The environment variable name the launcher uses as the side channel. -/
def VAD_KEY : String := "WHISPER_LIVE_VAD_THRESHOLD"

/-- The argument record produced by the original VoiceActivityDetector
constructor: what `original_init(self, threshold=..., frame_rate=...)`
receives.  Only the arguments are observable in the embedding. -/
structure VADInitCall where
  threshold : ℚ
  frame_rate : ℕ
deriving DecidableEq

/-- The captured original constructor (line 12 of the source): delegation to it
is recorded as the argument record it receives. -/
def original_init (threshold : ℚ) (frame_rate : ℕ) : VADInitCall :=
  ⟨threshold, frame_rate⟩

/-- The original constructor's hardcoded default threshold (source line 14). -/
def patched_init_default_threshold : ℚ := mkRat 1 2

/-- The constructor's default frame rate (source line 14). -/
def patched_init_default_frame_rate : ℕ := 16000

/-- Lines 14-18 of the source: the replacement constructor reads
WHISPER_LIVE_VAD_THRESHOLD from the environment (falling back to 0.3 when the
variable is absent), converts it with float(), and delegates to the original
constructor with that threshold and the caller's frame rate.  The caller's
`threshold` argument is ignored.  `none` models the ValueError raised by the
unguarded float() conversion on a malformed value. -/
def patched_init (env : String → Option String) (threshold : ℚ) (frame_rate : ℕ) :
    Option VADInitCall :=
  match env VAD_KEY with
  | none => some (original_init (mkRat 3 10) frame_rate)
  | some s => (pyParseFloat s).map (fun v => original_init v frame_rate)

/-- The parsed CLI configuration (source lines 24-27). -/
structure Args where
  port : ℤ
  model : String
  vad_threshold : ℚ
deriving DecidableEq

/-- Model of the argparse loop over the three optional flags, each given in the
space-separated form (flag token followed by a value token); later occurrences
override earlier ones, an unknown token or a value that fails its type
conversion aborts parsing (argparse exits with an error), as does a trailing
flag with no value. -/
def parseArgsFrom : List String → Args → Option Args
  | [], acc => some acc
  | "--port" :: v :: rest, acc =>
    (pyParseInt v).bind (fun p => parseArgsFrom rest ⟨p, acc.model, acc.vad_threshold⟩)
  | "--model" :: v :: rest, acc =>
    parseArgsFrom rest ⟨acc.port, v, acc.vad_threshold⟩
  | "--vad_threshold" :: v :: rest, acc =>
    (pyParseFloat v).bind (fun t => parseArgsFrom rest ⟨acc.port, acc.model, t⟩)
  | _, _ => none

/-- Source lines 24-27: parse argv against the defaults
port=9090, model="small.en", vad_threshold=0.3. -/
def parseArgs (argv : List String) : Option Args :=
  parseArgsFrom argv ⟨9090, "small.en", mkRat 3 10⟩

/-- Source line 30: the environment after
`os.environ[VAD_KEY] = str(args.vad_threshold)`. -/
def mainEnvAfter (a : Args) (env0 : String → Option String) : String → Option String :=
  fun k => if k = VAD_KEY then some (pyStrFloat a.vad_threshold) else env0 k

/-- Source line 33: `args.model if "/" in args.model else None`. -/
def resolveModelPath (m : String) : Option String :=
  if strContainsStr "/" m then some m else none

/-- Source line 34: the diagnostic line printed before the server starts. -/
def mainDiagnostic (a : Args) : String :=
  "[WhisperLive] Starting server on port " ++ toString a.port ++
    " with model=" ++ a.model ++ ", vad_threshold=" ++ pyStrFloat a.vad_threshold

/-- The argument record of the `server.run(...)` invocation. -/
structure RunCall where
  host : String
  port : ℤ
  backend : String
  faster_whisper_custom_model_path : Option String
  single_model : Bool
deriving DecidableEq

/-- Source lines 35-41: the run invocation main performs. -/
def mainRunCall (a : Args) : RunCall :=
  ⟨"0.0.0.0", a.port, "faster_whisper", resolveModelPath a.model, true⟩

/-- The observable effects of one execution of main: the updated environment,
the diagnostic line, and the arguments of the blocking `server.run` call. -/
structure MainResult where
  env : String → Option String
  diagnostic : String
  runCall : RunCall

/-- Source lines 22-41: main parses argv, mirrors the threshold into the
environment, prints the diagnostic and invokes the server run entry point;
`none` models the uncaught argparse failure on invalid input.  (Named py_main
because Lean reserves the name main for executable entry points.) -/
def py_main (argv : List String) (env0 : String → Option String) : Option MainResult :=
  (parseArgs argv).map (fun a => ⟨mainEnvAfter a env0, mainDiagnostic a, mainRunCall a⟩)

/-- Source line 18: the diagnostic printed by the patched constructor. -/
def patched_init_diagnostic (v : ℚ) : String :=
  "[WhisperLive] Using VAD threshold: " ++ pyStrFloat v

/-- C1: after the constructor patch is installed, constructing the detector
with no explicit threshold argument (so with the original hardcoded default
0.5) delegates to the original constructor with threshold equal to the float
value parsed from the string currently stored in WHISPER_LIVE_VAD_THRESHOLD,
whenever that string parses as a float. -/
theorem patched_init_uses_env_threshold
    (env : String → Option String) (s : String) (q : ℚ) (fr : ℕ)
    (hs : env VAD_KEY = some s) (hq : pyParseFloat s = some q) :
    patched_init env patched_init_default_threshold fr = some (original_init q fr) := by
  simp [patched_init, hs, hq]

theorem patched_init_uses_env_threshold_witness :
    ((fun k => if k = VAD_KEY then some "0.7" else none) : String → Option String) VAD_KEY
      = some "0.7" ∧
    pyParseFloat "0.7" = some (mkRat 7 10) ∧
    patched_init (fun k => if k = VAD_KEY then some "0.7" else none)
      patched_init_default_threshold 16000 = some (original_init (mkRat 7 10) 16000) :=
  ⟨by decide, by decide,
    patched_init_uses_env_threshold (fun k => if k = VAD_KEY then some "0.7" else none)
      "0.7" (mkRat 7 10) 16000 (by decide) (by decide)⟩

/-- C2: for every valid command line, after main parses the arguments the
environment variable WHISPER_LIVE_VAD_THRESHOLD holds exactly the string form
of the parsed vad_threshold value. -/
theorem main_env_mirrors_vad_threshold
    (argv : List String) (env0 : String → Option String) (args : Args)
    (h : parseArgs argv = some args) :
    (py_main argv env0).map (fun r => r.env VAD_KEY) =
      some (some (pyStrFloat args.vad_threshold)) := by
  simp [py_main, h, mainEnvAfter]

theorem main_env_mirrors_vad_threshold_witness :
    parseArgs ["--vad_threshold", "0.15"] = some ⟨9090, "small.en", mkRat 3 20⟩ ∧
    (py_main ["--vad_threshold", "0.15"] (fun _ => none)).map (fun r => r.env VAD_KEY) =
      some (some "0.15") := by
  refine ⟨by decide, ?_⟩
  have h := main_env_mirrors_vad_threshold ["--vad_threshold", "0.15"] (fun _ => none)
    ⟨9090, "small.en", mkRat 3 20⟩ (by decide)
  have h2 : (py_main ["--vad_threshold", "0.15"] (fun _ => none)).map (fun r => r.env VAD_KEY) =
      some (some (pyStrFloat (mkRat 3 20))) := h
  have hv : pyStrFloat (mkRat 3 20) = "0.15" := by decide
  rw [hv] at h2
  exact h2

/-- C3: the custom-model-path argument of the run call equals the model string
exactly when that string contains the path separator, and is None when it does
not. -/
theorem run_custom_model_path (a : Args) :
    (strContainsStr "/" a.model = true →
      (mainRunCall a).faster_whisper_custom_model_path = some a.model) ∧
    (strContainsStr "/" a.model = false →
      (mainRunCall a).faster_whisper_custom_model_path = none) := by
  constructor <;> intro h <;> simp [mainRunCall, resolveModelPath, h]

theorem run_custom_model_path_witness :
    (mainRunCall ⟨9090, "models/custom.bin", mkRat 3 10⟩).faster_whisper_custom_model_path
      = some "models/custom.bin" ∧
    (mainRunCall ⟨9090, "small.en", mkRat 3 10⟩).faster_whisper_custom_model_path = none :=
  ⟨(run_custom_model_path ⟨9090, "models/custom.bin", mkRat 3 10⟩).1 (by decide),
   (run_custom_model_path ⟨9090, "small.en", mkRat 3 10⟩).2 (by decide)⟩

/-- C4: for every parsed configuration, main invokes the server run entry
point with exactly host 0.0.0.0, the parsed port, backend faster_whisper, the
resolved custom model path, and single_model set to true. -/
theorem main_run_call_shape
    (argv : List String) (env0 : String → Option String) (args : Args)
    (h : parseArgs argv = some args) :
    py_main argv env0 = some ⟨mainEnvAfter args env0, mainDiagnostic args,
      ⟨"0.0.0.0", args.port, "faster_whisper", resolveModelPath args.model, true⟩⟩ := by
  simp [py_main, h, mainRunCall]

theorem main_run_call_shape_witness :
    parseArgs [] = some ⟨9090, "small.en", mkRat 3 10⟩ ∧
    py_main [] (fun _ => none) =
      some ⟨mainEnvAfter ⟨9090, "small.en", mkRat 3 10⟩ (fun _ => none),
        mainDiagnostic ⟨9090, "small.en", mkRat 3 10⟩,
        ⟨"0.0.0.0", 9090, "faster_whisper", none, true⟩⟩ :=
  ⟨by decide, main_run_call_shape [] (fun _ => none) ⟨9090, "small.en", mkRat 3 10⟩ (by decide)⟩

/-- C5: omitting all CLI flags yields the effective configuration
port 9090, model small.en, vad_threshold 0.3. -/
theorem default_configuration :
    parseArgs [] = some ⟨9090, "small.en", mkRat 3 10⟩ := by decide

/-- A list starts with itself. -/
theorem listStartsWith_self (l : List Char) : listStartsWith l l = true := by
  induction l with
  | nil => rfl
  | cons a t ih => simp [listStartsWith, ih]

/-- A list occurs as a contiguous sublist of anything it suffixes. -/
theorem listHasSub_append (pre needle : List Char) :
    listHasSub needle (pre ++ needle) = true := by
  induction pre with
  | nil =>
    cases needle with
    | nil => rfl
    | cons c t => simp [listHasSub, listStartsWith_self]
  | cons p ps ih => simp [listHasSub, ih]

/-- A string contains every suffix of itself as a substring. -/
theorem strContainsStr_append (pre needle : String) :
    strContainsStr needle (pre ++ needle) = true := by
  obtain ⟨pd⟩ := pre
  obtain ⟨nd⟩ := needle
  exact listHasSub_append pd nd

/-- C6: any float-parseable threshold string, with no restriction to the
implied (0,1) range, is accepted unchanged by the parser and forwarded as-is
both into the environment variable and into the diagnostic line, which
contains vad_threshold= followed by exactly the string form of the value: no
range validation happens anywhere. -/
theorem vad_threshold_unvalidated
    (s : String) (q : ℚ) (env0 : String → Option String)
    (hq : pyParseFloat s = some q) :
    parseArgs ["--vad_threshold", s] = some ⟨9090, "small.en", q⟩ ∧
    mainEnvAfter ⟨9090, "small.en", q⟩ env0 VAD_KEY = some (pyStrFloat q) ∧
    strContainsStr ("vad_threshold=" ++ pyStrFloat q)
      (mainDiagnostic ⟨9090, "small.en", q⟩) = true := by
  refine ⟨?_, ?_, ?_⟩
  · have hb : parseArgs ["--vad_threshold", s] =
      (pyParseFloat s).bind (fun t => some ⟨9090, "small.en", t⟩) := rfl
    rw [hb, hq]
    rfl
  · simp [mainEnvAfter]
  · have hm : mainDiagnostic ⟨9090, "small.en", q⟩ =
      "[WhisperLive] Starting server on port 9090 with model=small.en, " ++
        ("vad_threshold=" ++ pyStrFloat q) := rfl
    rw [hm]
    exact strContainsStr_append _ _

theorem vad_threshold_unvalidated_witness :
    pyParseFloat "5.0" = some 5 ∧
    parseArgs ["--vad_threshold", "5.0"] = some ⟨9090, "small.en", 5⟩ ∧
    mainEnvAfter ⟨9090, "small.en", 5⟩ (fun _ => none) VAD_KEY = some "5.0" ∧
    strContainsStr "vad_threshold=5.0" (mainDiagnostic ⟨9090, "small.en", 5⟩) = true := by
  refine ⟨by decide, ?_, ?_, ?_⟩
  · exact (vad_threshold_unvalidated "5.0" 5 (fun _ => none) (by decide)).1
  · have h := (vad_threshold_unvalidated "5.0" 5 (fun _ => none) (by decide)).2.1
    have hv : pyStrFloat (5 : ℚ) = "5.0" := by decide
    rw [hv] at h
    exact h
  · have h := (vad_threshold_unvalidated "5.0" 5 (fun _ => none) (by decide)).2.2
    have hv : pyStrFloat (5 : ℚ) = "5.0" := by decide
    rw [hv] at h
    have hn : ("vad_threshold=" ++ "5.0" : String) = "vad_threshold=5.0" := by decide
    rw [hn] at h
    exact h

/-- C7: when WHISPER_LIVE_VAD_THRESHOLD is unset, the patched constructor
falls back to the secondary default threshold 0.3. -/
theorem patched_init_fallback_unset
    (env : String → Option String) (th : ℚ) (fr : ℕ) (h : env VAD_KEY = none) :
    patched_init env th fr = some (original_init (mkRat 3 10) fr) := by
  simp [patched_init, h]

theorem patched_init_fallback_unset_witness :
    ((fun _ => none) : String → Option String) VAD_KEY = none ∧
    patched_init (fun _ => none) patched_init_default_threshold 16000 =
      some (original_init (mkRat 3 10) 16000) :=
  ⟨rfl, patched_init_fallback_unset (fun _ => none) patched_init_default_threshold 16000 rfl⟩

/-- C8: started with vad_threshold 0.15, the diagnostic line main emits before
invoking the server contains the literal substring vad_threshold=0.15. -/
theorem diagnostic_contains_threshold :
    (py_main ["--vad_threshold", "0.15"] (fun _ => none)).map
      (fun r => strContainsStr "vad_threshold=0.15" r.diagnostic) = some true := by decide

/-- C9: when WHISPER_LIVE_VAD_THRESHOLD is set to a string that does not parse
as a float, the patched constructor raises (the float conversion is
unguarded); the 0.3 fallback does not apply to malformed values. -/
theorem patched_init_malformed_env_raises
    (env : String → Option String) (s : String) (th : ℚ) (fr : ℕ)
    (hs : env VAD_KEY = some s) (hbad : pyParseFloat s = none) :
    patched_init env th fr = none := by
  simp [patched_init, hs, hbad]

theorem patched_init_malformed_env_raises_witness :
    ((fun k => if k = VAD_KEY then some "abc" else none) : String → Option String) VAD_KEY
      = some "abc" ∧
    pyParseFloat "abc" = none ∧
    patched_init (fun k => if k = VAD_KEY then some "abc" else none)
      patched_init_default_threshold 16000 = none :=
  ⟨by decide, by decide,
    patched_init_malformed_env_raises (fun k => if k = VAD_KEY then some "abc" else none)
      "abc" patched_init_default_threshold 16000 (by decide) (by decide)⟩

/-- C10: whenever the patched constructor succeeds, the frame rate it passes
to the original constructor is exactly the caller-supplied frame rate; only
the threshold is overridden. -/
theorem patched_init_preserves_frame_rate
    (env : String → Option String) (th : ℚ) (fr : ℕ) (c : VADInitCall)
    (h : patched_init env th fr = some c) :
    c.frame_rate = fr := by
  unfold patched_init at h
  cases henv : env VAD_KEY with
  | none =>
    rw [henv] at h
    simp at h
    rw [← h]
    rfl
  | some s =>
    rw [henv] at h
    have h2 : Option.map (fun v => original_init v fr) (pyParseFloat s) = some c := h
    cases hp : pyParseFloat s with
    | none =>
      rw [hp] at h2
      simp at h2
    | some v =>
      rw [hp] at h2
      simp at h2
      rw [← h2]
      rfl

theorem patched_init_preserves_frame_rate_witness :
    patched_init (fun _ => none) patched_init_default_threshold 8000 =
      some (original_init (mkRat 3 10) 8000) ∧
    (original_init (mkRat 3 10) 8000).frame_rate = 8000 :=
  ⟨by decide, patched_init_preserves_frame_rate (fun _ => none)
    patched_init_default_threshold 8000 (original_init (mkRat 3 10) 8000) (by decide)⟩
